import Mathlib

/-!
Verification development for oleform.py (oletools-portable), a decoder for the
OFORMS binary structure.  The Python source is shallowly embedded: the
ExtendedStream cursor becomes an explicit state record, byte streams become
lists of naturals, fallible operations return a result paired with the state
after the operation (the state survives an error, as it does in Python), and
each consume_* function is translated statement by statement.
-/

/-- The Python exception kinds that can escape the translated code.
OleFormParsingError is the error class defined by oleform.py itself (raised by
ExtendedStream.raise_error, carrying the position and a reason); the others are
builtin Python exceptions: struct.error from struct.unpack on a buffer of the
wrong size, AttributeError from an access to a missing attribute,
ValueError from list.index on a missing element, and IndexError from
list.pop on an empty list. -/
inductive PyErr where
  | oleFormParsingError : Int → String → PyErr
  | structError : PyErr
  | attributeError : String → PyErr
  | valueError : String → PyErr
  | indexError : PyErr
deriving DecidableEq, Repr

deriving instance DecidableEq for Except

/-- State of ExtendedStream (oleform.py lines 52-57): the tracked absolute
position since stream start (a Python int), the stack of open regions
(start position, jump type, size) pushed by the enter method, and the
unread bytes of the underlying sequential byte source. -/
structure ExtendedStream where
  pos : Int
  jumps : List (Int × Bool × Int)
  stream : List Nat
deriving DecidableEq, Repr

/-- ExtendedStream.read (lines 68-70): always adds size to the tracked
position and returns whatever the underlying stream returns.  The underlying
byte source (an io.BytesIO subclass from olefile, out of scope of the repo)
returns up to size bytes for a non-negative size, fewer only when the stream
is near its end, and for a negative size reads all remaining bytes, as
io.BytesIO.read does.  No truncation check of any kind is performed here. -/
def ExtendedStream.read (st : ExtendedStream) (size : Int) : List Nat × ExtendedStream :=
  if size < 0 then
    (st.stream, { st with pos := st.pos + size, stream := [] })
  else
    (st.stream.take size.toNat,
     { st with pos := st.pos + size, stream := st.stream.drop size.toNat })

/-- The composition of will_jump_to or will_pad (lines 72-78, which store the
pending region in the instance) with the immediately following context-manager
enter (lines 80-82, which pushes (current position, jump type, size) on the
jumps stack).  jumpType true is will_jump_to, false is will_pad. -/
def ExtendedStream.enter (st : ExtendedStream) (jumpType : Bool) (size : Int) : ExtendedStream :=
  { st with jumps := (st.pos, jumpType, size) :: st.jumps }

/-- The context-manager exit (lines 84-92) on the path where no exception is
active: pop the top region (list.pop on an empty list raises IndexError); for
a will_jump_to region read size - (pos - start) filler bytes (this count can
be negative, producing a negative-size read); for a will_pad region read
size - align filler bytes where align = (pos - start) mod size, and nothing
when already aligned.  Python computes mod with the sign of the divisor; for
a positive divisor that is Int.emod. -/
def ExtendedStream.exitOk (st : ExtendedStream) : Except PyErr Unit × ExtendedStream :=
  match st.jumps with
  | [] => (.error .indexError, st)
  | (start, jumpType, size) :: rest =>
    let st1 := { st with jumps := rest }
    match jumpType with
    | true => (.ok (), (st1.read (size - (st.pos - start))).2)
    | false =>
      let align := (st.pos - start).emod size
      if align = 0 then (.ok (), st1)
      else (.ok (), (st1.read (size - align)).2)

/-- Sequencing of two fallible steps: on error the state at the error is
propagated unchanged, as a Python exception propagates past the rest of the
statements. -/
def stepE {α β : Type} (p : Except PyErr α × ExtendedStream)
    (k : α → ExtendedStream → Except PyErr β × ExtendedStream) :
    Except PyErr β × ExtendedStream :=
  match p with
  | (.ok a, st) => k a st
  | (.error e, st) => (.error e, st)

/-- Sequencing of a pure fallible value (such as a mask attribute lookup)
into a stateful continuation. -/
def stepV {α β : Type} (r : Except PyErr α) (st : ExtendedStream)
    (k : α → ExtendedStream → Except PyErr β × ExtendedStream) :
    Except PyErr β × ExtendedStream :=
  match r with
  | .ok a => k a st
  | .error e => (.error e, st)

/-- A with-statement over an ExtendedStream region (lines 80-92): enter pushes
the region; if the body finishes normally the exit method pops the region and
consumes filler; if the body raises, exc_type is not None, so the exit method
does nothing at all (in particular the region is not popped) and the exception
propagates unchanged. -/
def withRegion {α : Type} (jumpType : Bool) (size : Int)
    (body : ExtendedStream → Except PyErr α × ExtendedStream)
    (st : ExtendedStream) : Except PyErr α × ExtendedStream :=
  match body (st.enter jumpType size) with
  | (.ok a, st2) =>
    match st2.exitOk with
    | (.ok _, st3) => (.ok a, st3)
    | (.error e, st3) => (.error e, st3)
  | (.error e, st2) => (.error e, st2)

/-- Little-endian value of a byte list (first byte least significant). -/
def leNat : List Nat → Nat
  | [] => 0
  | b :: bs => b + 256 * leNat bs

/-- Big-endian value of a byte list (first byte most significant). -/
def beNat (bs : List Nat) : Nat := bs.foldl (fun a b => 256 * a + b) 0

/-- stream.unpack of a single little-endian field of the given byte size
(formats <H, <L, <Q): read the bytes, then struct.unpack raises struct.error
unless exactly size bytes came back. -/
def unpackLE (st : ExtendedStream) (size : Nat) : Except PyErr Nat × ExtendedStream :=
  let r := st.read (size : Int)
  if r.1.length = size then (.ok (leNat r.1), r.2) else (.error .structError, r.2)

/-- stream.unpacks with format <BB: two single bytes. -/
def unpacksBB (st : ExtendedStream) : Except PyErr (Nat × Nat) × ExtendedStream :=
  let r := st.read 2
  match r.1 with
  | [b0, b1] => (.ok (b0, b1), r.2)
  | _ => (.error .structError, r.2)

/-- stream.unpack with format <B: one byte. -/
def unpackB (st : ExtendedStream) : Except PyErr Nat × ExtendedStream :=
  let r := st.read 1
  match r.1 with
  | [b0] => (.ok b0, r.2)
  | _ => (.error .structError, r.2)

/-- stream.unpacks with format <LHH: a 4-byte and two 2-byte little-endian
fields out of 8 bytes. -/
def unpacksLHH (st : ExtendedStream) : Except PyErr (Nat × Nat × Nat) × ExtendedStream :=
  let r := st.read 8
  if r.1.length = 8 then
    (.ok (leNat (r.1.take 4), leNat ((r.1.drop 4).take 2), leNat (r.1.drop 6)), r.2)
  else (.error .structError, r.2)

/-- stream.unpack with format >Q: one 8-byte big-endian field. -/
def unpackBE8 (st : ExtendedStream) : Except PyErr Nat × ExtendedStream :=
  let r := st.read 8
  if r.1.length = 8 then (.ok (beNat r.1), r.2) else (.error .structError, r.2)

/-- stream.unpacks with format <LL: two 4-byte little-endian fields. -/
def unpacksLL (st : ExtendedStream) : Except PyErr (Nat × Nat) × ExtendedStream :=
  let r := st.read 8
  if r.1.length = 8 then (.ok (leNat (r.1.take 4), leNat (r.1.drop 4)), r.2)
  else (.error .structError, r.2)

/-- check_values for format <BB (lines 103-106): unpack, compare with the
expected pair, raise OleFormParsingError through raise_error on mismatch. -/
def check_values_BB (st : ExtendedStream) (e0 e1 : Nat) (name : String) :
    Except PyErr Unit × ExtendedStream :=
  stepE (unpacksBB st) fun v st =>
    if v = (e0, e1) then (.ok (), st)
    else (.error (.oleFormParsingError st.pos ("Invalid " ++ name)), st)

/-- check_value for format <B. -/
def check_value_B (st : ExtendedStream) (expected : Nat) (name : String) :
    Except PyErr Unit × ExtendedStream :=
  stepE (unpackB st) fun v st =>
    if v = expected then (.ok (), st)
    else (.error (.oleFormParsingError st.pos ("Invalid " ++ name)), st)

/-- check_value for format <L. -/
def check_value_L (st : ExtendedStream) (expected : Nat) (name : String) :
    Except PyErr Unit × ExtendedStream :=
  stepE (unpackLE st 4) fun v st =>
    if v = expected then (.ok (), st)
    else (.error (.oleFormParsingError st.pos ("Invalid " ++ name)), st)

/-- check_values for format <LHH. -/
def check_values_LHH (st : ExtendedStream) (e0 e1 e2 : Nat) (name : String) :
    Except PyErr Unit × ExtendedStream :=
  stepE (unpacksLHH st) fun v st =>
    if v = (e0, e1, e2) then (.ok (), st)
    else (.error (.oleFormParsingError st.pos ("Invalid " ++ name)), st)

/-- check_value for format >Q. -/
def check_value_BE8 (st : ExtendedStream) (expected : Nat) (name : String) :
    Except PyErr Unit × ExtendedStream :=
  stepE (unpackBE8 st) fun v st =>
    if v = expected then (.ok (), st)
    else (.error (.oleFormParsingError st.pos ("Invalid " ++ name)), st)

/-- The Mask class (lines 8-22).  The Python fields _size, _names and _val are
the fields size, names and val here; _val is built in __init__ as the list
of (val and (1 shifted left by i)) shifted right by i, for i below _size. -/
structure Mask where
  size : Nat
  names : List String
  val : List Nat
deriving DecidableEq, Repr

/-- Mask.__init__ (lines 9-10) for a subclass with class attributes
_size = size and _names = names. -/
def mkMask (size : Nat) (names : List String) (v : Nat) : Mask :=
  ⟨size, names, (List.range size).map (fun i => (v &&& (1 <<< i)) >>> i)⟩

/-- Mask.__getattr__ and Mask.__getitem__ (lines 15-16 and 21-22): both
return self._val at index self._names.index(name).  Python list.index raises
ValueError when the name does not occur (resolving to the first occurrence
otherwise), and list subscripting raises IndexError out of range. -/
def maskGetattr (m : Mask) (name : String) : Except PyErr Nat :=
  match m.names.indexOf? name with
  | none => .error (.valueError name)
  | some i =>
    match m.val[i]? with
    | none => .error .indexError
    | some b => .ok b

/-- Mask.__str__ (lines 12-13): join with a comma and a space the names at
the indices below _size whose _val entry is truthy. -/
def maskStr (m : Mask) : String :=
  String.intercalate ", "
    (((List.range m.size).filter (fun i => m.val.getD i 0 != 0)).map
      (fun i => m.names.getD i ""))

/-- Mask.__len__ (lines 18-19): return self.size.  No instance or class
attribute named size exists (the class attribute is _size), so the lookup
falls through to Mask.__getattr__ with the string "size". -/
def Mask.pyLen (m : Mask) : Except PyErr Nat := maskGetattr m "size"

/-- FormPropMask._names (lines 27-32).  Note that fBooleanProperties occurs
twice, at indices 6 and 7. -/
def formPropMaskNames : List String :=
  ["Unused1", "fBackColor", "fForeColor", "fNextAvailableID", "Unused2_0", "Unused2_1",
   "fBooleanProperties", "fBooleanProperties", "fMousePointer", "fScrollBars",
   "fDisplayedSize", "fLogicalSize", "fScrollPosition", "fGroupCnt", "Reserved",
   "fMouseIcon", "fCycle", "fSpecialEffect", "fBorderColor", "fCaption", "fFont",
   "fPicture", "fZoom", "fPictureAlignment", "fPictureTiling", "fPictureSizeMode",
   "fShapeCookie", "fDrawBuffer"]

/-- FormPropMask (lines 24-32): _size = 28. -/
def FormPropMask (v : Nat) : Mask := mkMask 28 formPropMaskNames v

/-- SitePropMask._names (lines 37-39). -/
def sitePropMaskNames : List String :=
  ["fName", "fTag", "fID", "fHelpContextID", "fBitFlags", "fObjectStreamSize",
   "fTabIndex", "fClsidCacheIndex", "fPosition", "fGroupID", "Unused1",
   "fControlTipText", "fRuntimeLicKey", "fControlSource", "fRowSource"]

/-- SitePropMask (lines 34-39): _size = 15. -/
def SitePropMask (v : Nat) : Mask := mkMask 15 sitePropMaskNames v

/-- MorphDataPropMask._names (lines 44-50). -/
def morphDataPropMaskNames : List String :=
  ["fVariousPropertyBits", "fBackColor", "fForeColor", "fMaxLength", "fBorderStyle",
   "fScrollBars", "fDisplayStyle", "fMousePointer", "fSize", "fPasswordChar",
   "fListWidth", "fBoundColumn", "fTextColumn", "fColumnCount", "fListRows",
   "fcColumnInfo", "fMatchEntry", "fListStyle", "fShowDropButtonWhen", "UnusedBits1",
   "fDropButtonStyle", "fMultiSelect", "fValue", "fCaption", "fPicturePosition",
   "fBorderColor", "fSpecialEffect", "fMouseIcon", "fPicture", "fAccelerator",
   "UnusedBits2", "Reserved", "fGroupName"]

/-- MorphDataPropMask (lines 41-50): _size = 33. -/
def MorphDataPropMask (v : Nat) : Mask := mkMask 33 morphDataPropMaskNames v

/-- consume_TextProps (lines 112-116): check versions (0, 2), read a 2-byte
length, read that many bytes. -/
def consume_TextProps (st : ExtendedStream) : Except PyErr Unit × ExtendedStream :=
  stepE (check_values_BB st 0 2 "TextProps (versions)") fun _ st =>
  stepE (unpackLE st 2) fun cbTextProps st =>
  (.ok (), (st.read (cbTextProps : Int)).2)

/-- consume_GuidAndPicture (lines 135-143): validate the fixed 16-byte UUID
(8 bytes as <LHH plus 8 bytes as >Q), validate the 4-byte StdPicture
preamble 0x0000746C, read a 4-byte size, read that many bytes. -/
def consume_GuidAndPicture (st : ExtendedStream) : Except PyErr Unit × ExtendedStream :=
  stepE (check_values_LHH st 199447044 36753 4558 "GuidAndPicture (UUID part 1)") fun _ st =>
  stepE (check_value_BE8 st 11376937813817407569 "GuidAndPicture (UUID part 1)") fun _ st =>
  stepE (check_value_L st 0x0000746C "StdPicture (Preamble)") fun _ st =>
  stepE (unpackLE st 4) fun size st =>
  (.ok (), (st.read (size : Int)).2)

/-- consume_CountOfBytesWithCompressionFlag (lines 145-150): read a 4-byte
count; when the high bit is clear and the count is non-zero the source calls
stream.aise_error (line 149) - ExtendedStream has no attribute of that name
and no getattr fallback, so Python raises AttributeError at that attribute
access; otherwise return the low 31 bits. -/
def consume_CountOfBytesWithCompressionFlag (st : ExtendedStream) :
    Except PyErr Nat × ExtendedStream :=
  stepE (unpackLE st 4) fun count st =>
  if count &&& 0x80000000 = 0 ∧ count ≠ 0 then
    (.error (.attributeError "aise_error"), st)
  else
    (.ok (count &&& 0x7FFFFFFF), st)

/-- consume_FormObjectDepthTypeCount (lines 158-166): read depth and mixed
bytes; when bit 7 of mixed is set, validate a following 1-byte site type of 1
and return mixed xor 0x80; otherwise mixed must equal 1, else raise through
raise_error; return 1. -/
def consume_FormObjectDepthTypeCount (st : ExtendedStream) :
    Except PyErr Nat × ExtendedStream :=
  stepE (unpacksBB st) fun dm st =>
  if dm.2 &&& 0x80 ≠ 0 then
    stepE (check_value_B st 1 "FormObjectDepthTypeCount (SITE_TYPE)") fun _ st =>
      (.ok (dm.2 ^^^ 0x80), st)
  else if dm.2 ≠ 1 then
    (.error (.oleFormParsingError st.pos "Invalid FormObjectDepthTypeCount (SITE_TYPE)"), st)
  else
    (.ok 1, st)

/-- The depth and type loop of consume_FormControl (lines 232-235):
while remaining_SiteDepthsAndTypes > 0, subtract the result of
consume_FormObjectDepthTypeCount.  The loop is written with explicit fuel;
none means the fuel ran out before the loop finished, some carries the final
value of the remaining counter (on normal exit) or the propagating exception,
together with the stream state. -/
def depthTypeLoopF : Nat → Int → ExtendedStream → Option (Except PyErr Int × ExtendedStream)
  | 0, _, _ => none
  | fuel + 1, remaining, st =>
    if remaining > 0 then
      match consume_FormObjectDepthTypeCount st with
      | (.ok c, st1) => depthTypeLoopF fuel (remaining - (c : Int)) st1
      | (.error e, st1) => some (.error e, st1)
    else
      some (.ok remaining, st)

/-- A for-loop of the shape: for prop in props, if propmask[prop] then
stream.read(n) (as on lines 182-184, 194-196, 210-212, 246-248 and others).
The subscript goes through Mask.__getitem__ and can in principle raise. -/
def condReads (m : Mask) (props : List String) (n : Int) (st : ExtendedStream) :
    Except PyErr Unit × ExtendedStream :=
  match props with
  | [] => (.ok (), st)
  | p :: ps =>
    stepV (maskGetattr m p) st fun b st =>
      condReads m ps n (if b ≠ 0 then (st.read n).2 else st)

/-- consume_MorphDataControl (lines 239-285), translated statement by
statement.  The will_jump_to region body returns the propmask together with
the value bytes because the Python locals escape the with block and the
propmask is used again after the region is closed (lines 280-284). -/
def consume_MorphDataControl (st : ExtendedStream) :
    Except PyErr (List Nat) × ExtendedStream :=
  stepE (check_values_BB st 0 2 "MorphDataControl (versions)") fun _ st =>
  stepE (unpackLE st 2) fun cbMorphData st =>
  stepE (withRegion true (cbMorphData : Int) (fun st =>
    stepE (unpackLE st 8) fun maskVal st =>
    let propmask := MorphDataPropMask maskVal
    stepE (condReads propmask
        ["fVariousPropertyBits", "fBackColor", "fForeColor", "fMaxLength"] 4 st) fun _ st =>
    stepE (withRegion false 4 (condReads propmask
        ["fBorderStyle", "fScrollBars", "fDisplayStyle", "fMousePointer"] 1) st) fun _ st =>
    stepE (condReads propmask
        ["fPasswordChar", "fListWidth", "fBoundColumn", "fTextColumn", "fColumnCount",
         "fListRows"] 4 st) fun _ st =>
    stepE (withRegion false 4 (fun st =>
      stepV (maskGetattr propmask "fcColumnInfo") st fun b st =>
      condReads propmask
        ["fMatchEntry", "fListStyle", "fShowDropButtonWhen", "fDropButtonStyle",
         "fMultiSelect"] 1 (if b ≠ 0 then (st.read 2).2 else st)) st) fun _ st =>
    stepV (maskGetattr propmask "fValue") st fun fv st =>
    stepE (if fv ≠ 0 then consume_CountOfBytesWithCompressionFlag st
           else (.ok 0, st)) fun value_size st =>
    stepE (condReads propmask
        ["fCaption", "fPicturePosition", "fBorderColor", "fSpecialEffect",
         "fMouseIcon", "fPicture", "fAccelerator", "fGroupName"] 4 st) fun _ st =>
    let st := (st.read 8).2
    let r := st.read (value_size : Int)
    (.ok (propmask, r.1), r.2)) st) fun pv st =>
  stepV (maskGetattr pv.1 "fMouseIcon") st fun b st =>
  stepE (if b ≠ 0 then consume_GuidAndPicture st else (.ok (), st)) fun _ st =>
  stepV (maskGetattr pv.1 "fPicture") st fun b2 st =>
  stepE (if b2 ≠ 0 then consume_GuidAndPicture st else (.ok (), st)) fun _ st =>
  stepE (consume_TextProps st) fun _ st =>
  (.ok pv.2, st)

/-- A site record as produced by consume_OleSiteConcreteControl
(lines 200-201): the dictionary with keys name, tag, id, tabindex and
ClsidCacheIndex, before any value key is attached. -/
structure SiteVar where
  name : List Nat
  tag : List Nat
  id : Nat
  tabindex : Nat
  ClsidCacheIndex : Nat
deriving DecidableEq, Repr

/-- A site record after extract_OleFormVariables has attached the value key:
none models Python None. -/
structure OleFormVariable where
  var : SiteVar
  value : Option (List Nat)
deriving DecidableEq, Repr

/-- The per-variable loop of extract_OleFormVariables (lines 292-299) over the
already decoded site list, threading the associated-data stream: when
ClsidCacheIndex is not 23 the source prints a diagnostic and stores
value = None, and the loop simply continues; otherwise it stores the result
of consume_MorphDataControl on the data stream, whose exception, if any,
propagates and aborts the whole extraction. -/
def extract_loop : List SiteVar → ExtendedStream →
    Except PyErr (List OleFormVariable) × ExtendedStream
  | [], st => (.ok [], st)
  | v :: rest, st =>
    if v.ClsidCacheIndex ≠ 23 then
      stepE (extract_loop rest st) fun out st => (.ok (⟨v, none⟩ :: out), st)
    else
      stepE (consume_MorphDataControl st) fun value st =>
      stepE (extract_loop rest st) fun out st => (.ok (⟨v, some value⟩ :: out), st)

/-- Default records used only as List.getD fallbacks in statements. -/
def defaultSiteVar : SiteVar := ⟨[], [], 0, 0, 0⟩

def defaultOleVar : OleFormVariable := ⟨defaultSiteVar, none⟩

/-- Spec-side rendering of a property mask, written from the words of the
specification alone: join, in declared order, with a comma and a space, the
names whose bit (LSB first) in the backing value is 1.  It is compared with
the source-side maskStr in the refinement theorem for C6. -/
def maskRenderSpec (names : List String) (v : Nat) : String :=
  String.intercalate ", " ((names.enum.filter (fun p => v.testBit p.1)).map Prod.snd)

theorem read_pos (st : ExtendedStream) (size : Int) :
    (st.read size).2.pos = st.pos + size := by
  unfold ExtendedStream.read
  split <;> rfl

theorem read_jumps (st : ExtendedStream) (size : Int) :
    (st.read size).2.jumps = st.jumps := by
  unfold ExtendedStream.read
  split <;> rfl

/-- C1: as stated the claim fails.  Reading 2 bytes from a stream holding a
single byte 7 returns normally with the short result [7] (one byte, not two)
and still advances the tracked position by 2; no error of any kind is
raised. -/
theorem c1_counterexample :
    ((⟨0, [], [7]⟩ : ExtendedStream).read 2).1 = [7] ∧
    ((⟨0, [], [7]⟩ : ExtendedStream).read 2).1.length ≠ 2 ∧
    ((⟨0, [], [7]⟩ : ExtendedStream).read 2).2 = ⟨2, [], []⟩ := by
  decide

/-- C1 amended: for every cursor state and every requested size n, read(n)
returns the next min(n, remaining) bytes of the stream and advances the
position by n; when fewer than n bytes remain it silently returns a short
result instead of failing (read has no failure path at all). -/
theorem c1_read_amended (st : ExtendedStream) (n : Nat) :
    (st.read (n : Int)).1 = st.stream.take n ∧
    (st.read (n : Int)).2.pos = st.pos + n ∧
    (st.read (n : Int)).2.stream = st.stream.drop n ∧
    (st.read (n : Int)).1.length = min n st.stream.length := by
  have hn : ¬ ((n : Int) < 0) := by
    simp
  unfold ExtendedStream.read
  rw [if_neg hn]
  refine ⟨by simp, by simp, by simp, by simp [List.length_take]⟩

/-- C2: as stated the claim fails.  Closing a JumpTo(2) region that started
at position 0 after 3 bytes were consumed inside it (more than the declared
2) does not raise: it returns normally, and the tracked cursor lands at
start + 2 (moving backward from 3 to 2, via a negative-size read). -/
theorem c2_counterexample :
    ExtendedStream.exitOk ⟨3, [(0, true, 2)], []⟩ = (.ok (), ⟨2, [], []⟩) ∧
    (2 : Int) < 3 := by
  decide

/-- C2 amended: closing an open JumpTo(k) region always succeeds and leaves
the tracked cursor exactly k bytes past the region start, regardless of how
many bytes were consumed inside it - including when more than k were
consumed, in which case a negative-size read is issued on the underlying
stream instead of any error being raised. -/
theorem c2_jump_close_amended (st : ExtendedStream) (start k : Int)
    (rest : List (Int × Bool × Int)) (h : st.jumps = (start, true, k) :: rest) :
    (st.exitOk).1 = .ok () ∧
    (st.exitOk).2.pos = start + k ∧
    (st.exitOk).2.jumps = rest := by
  unfold ExtendedStream.exitOk
  rw [h]
  dsimp only
  refine ⟨rfl, ?_, ?_⟩
  · rw [read_pos]
    dsimp only
    omega
  · rw [read_jumps]

theorem c2_jump_close_amended_witness :
    ((⟨5, [(1, true, 7)], [9]⟩ : ExtendedStream).exitOk).1 = .ok () ∧
    ((⟨5, [(1, true, 7)], [9]⟩ : ExtendedStream).exitOk).2.pos = 1 + 7 ∧
    ((⟨5, [(1, true, 7)], [9]⟩ : ExtendedStream).exitOk).2.jumps = [] :=
  c2_jump_close_amended ⟨5, [(1, true, 7)], [9]⟩ 1 7 [] rfl

/-- C3: as stated the claim fails.  In the operation sequence openRegion
JumpTo(2) at position 0, read(3), closeRegion, the close moves the cursor
backward from position 3 to position 2. -/
theorem c3_counterexample :
    ((((⟨0, [], [9, 9, 9]⟩ : ExtendedStream).enter true 2).read 3).2.pos = 3) ∧
    (((((⟨0, [], [9, 9, 9]⟩ : ExtendedStream).enter true 2).read 3).2.exitOk).1 = .ok ()) ∧
    (((((⟨0, [], [9, 9, 9]⟩ : ExtendedStream).enter true 2).read 3).2.exitOk).2.pos = 2) ∧
    ((2 : Int) < 3) := by
  decide

/-- C3 amended: regions are closed in LIFO order (openRegion pushes on the
front of the stack and closeRegion removes exactly the front entry), and the
cursor position is non-decreasing across every read of non-negative size,
every PadTo close, and every JumpTo(k) close in which at most k bytes were
consumed inside the region; but a JumpTo(k) close after more than k consumed
bytes moves the cursor backward (see the counterexample). -/
theorem c3_monotone_lifo_amended (st : ExtendedStream) :
    (∀ n : Int, 0 ≤ n → st.pos ≤ (st.read n).2.pos) ∧
    (∀ jumpType size, (st.enter jumpType size).jumps = (st.pos, jumpType, size) :: st.jumps) ∧
    ((st.exitOk).2.jumps = st.jumps.tail) ∧
    (∀ start k rest, st.jumps = (start, true, k) :: rest →
      st.pos - start ≤ k → st.pos ≤ (st.exitOk).2.pos) ∧
    (∀ start m rest, st.jumps = (start, false, m) :: rest →
      0 < m → st.pos ≤ (st.exitOk).2.pos) := by
  refine ⟨?_, ?_, ?_, ?_, ?_⟩
  · intro n hn
    rw [read_pos]
    omega
  · intro jumpType size
    rfl
  · match h : st.jumps with
    | [] =>
      unfold ExtendedStream.exitOk
      rw [h]
      dsimp only
      rw [h]
      rfl
    | (start, jumpType, size) :: rest =>
      unfold ExtendedStream.exitOk
      rw [h]
      cases jumpType with
      | true =>
        dsimp only
        rw [read_jumps]
        rfl
      | false =>
        dsimp only
        split
        · rfl
        · rw [read_jumps]
          rfl
  · intro start k rest h hk
    unfold ExtendedStream.exitOk
    rw [h]
    dsimp only
    rw [read_pos]
    dsimp only
    omega
  · intro start m rest h hm
    unfold ExtendedStream.exitOk
    rw [h]
    have halign0 : 0 ≤ (st.pos - start).emod m := Int.emod_nonneg _ (by omega)
    have halign1 : (st.pos - start).emod m < m := Int.emod_lt_of_pos _ hm
    dsimp only
    split
    · exact le_refl _
    · rw [read_pos]
      dsimp only
      omega

theorem c3_monotone_lifo_amended_witness :
    ((1 : Int) ≤ ((⟨1, [(0, true, 4)], [9, 9]⟩ : ExtendedStream).read 3).2.pos) ∧
    ((1 : Int) ≤ ((⟨1, [(0, true, 4)], [9, 9]⟩ : ExtendedStream).exitOk).2.pos) ∧
    ((1 : Int) ≤ ((⟨1, [(0, false, 4)], [9, 9]⟩ : ExtendedStream).exitOk).2.pos) :=
  ⟨(c3_monotone_lifo_amended ⟨1, [(0, true, 4)], [9, 9]⟩).1 3 (by decide),
   (c3_monotone_lifo_amended ⟨1, [(0, true, 4)], [9, 9]⟩).2.2.2.1 0 4 [] rfl (by decide),
   (c3_monotone_lifo_amended ⟨1, [(0, false, 4)], [9, 9]⟩).2.2.2.2 0 4 [] rfl (by decide)⟩

/-- C8: as stated the claim fails.  When a struct.error escapes an open
JumpTo(10) region (a 4-byte unpack met only the 2 remaining bytes), the error
propagates unchanged and no filler is consumed (the position stays at 4,
where the error occurred), but the region entry is NOT discarded: the region
stack still holds (0, JumpTo, 10) after the exit. -/
theorem c8_counterexample :
    (withRegion true 10 (fun s => unpackLE s 4) ⟨0, [], [1, 2]⟩).1 = .error .structError ∧
    (withRegion true 10 (fun s => unpackLE s 4) ⟨0, [], [1, 2]⟩).2.pos = 4 ∧
    (withRegion true 10 (fun s => unpackLE s 4) ⟨0, [], [1, 2]⟩).2.jumps = [(0, true, 10)] := by
  decide

/-- C8 amended: if an error propagates out of an open region, closing
consumes no filler bytes and changes nothing at all - the resulting outcome
and state are exactly those at the point of the error, so the cursor is left
where the error occurred and the original error propagates unchanged; in
particular the region entry pushed at enter is NOT removed from the region
stack (the exit hook does nothing when an exception is active). -/
theorem c8_error_exit_amended {α : Type} (jumpType : Bool) (size : Int)
    (body : ExtendedStream → Except PyErr α × ExtendedStream) (st : ExtendedStream)
    (e : PyErr) (st2 : ExtendedStream)
    (h : body (st.enter jumpType size) = (.error e, st2)) :
    withRegion jumpType size body st = (.error e, st2) := by
  unfold withRegion
  rw [h]

theorem c8_error_exit_amended_witness :
    withRegion true 9 (fun s => unpackLE s 2) ⟨0, [], [5]⟩ =
      (.error .structError, ⟨2, [(0, true, 9)], []⟩) :=
  c8_error_exit_amended true 9 (fun s => unpackLE s 2) ⟨0, [], [5]⟩
    .structError ⟨2, [(0, true, 9)], []⟩ (by decide)

/-- C4: evaluation of the CompressedCount decoder at the three inputs named
by the claim.  The value 0x00000000 yields 0 with no error and 0x80000005
yields 5, as the claim states; but the value 0x00000005 (non-zero, high bit
clear) raises AttributeError - the source (line 149) calls the misspelled
stream.aise_error instead of stream.raise_error, so the condition is not
signalled as an OleFormParsingError, the decode-error kind of this parser. -/
theorem c4_compressed_count_eval :
    consume_CountOfBytesWithCompressionFlag ⟨0, [], [0, 0, 0, 0]⟩ = (.ok 0, ⟨4, [], []⟩) ∧
    consume_CountOfBytesWithCompressionFlag ⟨0, [], [5, 0, 0, 0x80]⟩ = (.ok 5, ⟨4, [], []⟩) ∧
    consume_CountOfBytesWithCompressionFlag ⟨0, [], [5, 0, 0, 0]⟩ =
      (.error (.attributeError "aise_error"), ⟨4, [], []⟩) := by
  decide

/-- C10: for each of the three property masks, over every backing value v,
taking the length via __len__ never returns the declared bit width: the body
reads self.size, an attribute no Mask instance defines (the stored attribute
is _size), so the lookup falls to __getattr__, which fails because "size" is
not among the declared flag names. -/
theorem c10_len_always_fails (v : Nat) :
    Mask.pyLen (FormPropMask v) = .error (.valueError "size") ∧
    Mask.pyLen (SitePropMask v) = .error (.valueError "size") ∧
    Mask.pyLen (MorphDataPropMask v) = .error (.valueError "size") :=
  ⟨rfl, rfl, rfl⟩

theorem extract_loop_all_unsupported (vars : List SiteVar) :
    ∀ st : ExtendedStream, (∀ v ∈ vars, v.ClsidCacheIndex ≠ 23) →
    extract_loop vars st = (.ok (vars.map (fun v => ⟨v, none⟩)), st) := by
  induction vars with
  | nil => intro st _; rfl
  | cons v rest ih =>
    intro st h
    have hv : v.ClsidCacheIndex ≠ 23 := h v (by simp)
    simp only [extract_loop]
    rw [if_pos hv, ih st (fun w hw => h w (by simp [hw]))]
    rfl

theorem extract_loop_error_has23 (vars : List SiteVar) :
    ∀ (st : ExtendedStream) (e : PyErr) (st2 : ExtendedStream),
    extract_loop vars st = (.error e, st2) → ∃ v ∈ vars, v.ClsidCacheIndex = 23 := by
  induction vars with
  | nil =>
    intro st e st2 h
    simp [extract_loop] at h
  | cons v rest ih =>
    intro st e st2 h
    by_cases hv : v.ClsidCacheIndex = 23
    · exact ⟨v, by simp, hv⟩
    · simp only [extract_loop] at h
      rw [if_pos hv] at h
      cases hrec : extract_loop rest st with
      | mk r st' =>
        rw [hrec] at h
        cases r with
        | ok out => exact absurd h (by simp [stepE])
        | error e' =>
          simp only [stepE] at h
          obtain ⟨w, hw, h23⟩ := ih st e' st' hrec
          exact ⟨w, by simp [hw], h23⟩

theorem extract_loop_ok_spec (vars : List SiteVar) :
    ∀ (st : ExtendedStream) (out : List OleFormVariable) (st2 : ExtendedStream),
    extract_loop vars st = (.ok out, st2) →
    out.length = vars.length ∧
    ∀ i : Nat, i < vars.length →
      (out.getD i defaultOleVar).var = vars.getD i defaultSiteVar ∧
      ((out.getD i defaultOleVar).value = none ↔
        (vars.getD i defaultSiteVar).ClsidCacheIndex ≠ 23) := by
  induction vars with
  | nil =>
    intro st out st2 h
    simp only [extract_loop, Prod.mk.injEq, Except.ok.injEq] at h
    obtain ⟨h1, _⟩ := h
    subst h1
    exact ⟨rfl, fun i hi => absurd hi (by simp)⟩
  | cons v rest ih =>
    intro st out st2 h
    by_cases hv : v.ClsidCacheIndex = 23
    · simp only [extract_loop] at h
      rw [if_neg (not_not_intro hv)] at h
      cases hm : consume_MorphDataControl st with
      | mk r st1 =>
        rw [hm] at h
        cases r with
        | error e => simp [stepE] at h
        | ok value =>
          simp only [stepE] at h
          cases hrec : extract_loop rest st1 with
          | mk r2 st' =>
            rw [hrec] at h
            cases r2 with
            | error e => simp [stepE] at h
            | ok out' =>
              simp only [stepE, Prod.mk.injEq, Except.ok.injEq] at h
              obtain ⟨h1, _⟩ := h
              subst h1
              obtain ⟨ihlen, ihspec⟩ := ih st1 out' st' hrec
              refine ⟨by simp [ihlen], ?_⟩
              intro i hi
              cases i with
              | zero => simp [defaultOleVar, defaultSiteVar, hv]
              | succ j =>
                simp only [List.getD_cons_succ]
                exact ihspec j (by simpa using hi)
    · simp only [extract_loop] at h
      rw [if_pos hv] at h
      cases hrec : extract_loop rest st with
      | mk r2 st' =>
        rw [hrec] at h
        cases r2 with
        | error e => simp [stepE] at h
        | ok out' =>
          simp only [stepE, Prod.mk.injEq, Except.ok.injEq] at h
          obtain ⟨h1, _⟩ := h
          subst h1
          obtain ⟨ihlen, ihspec⟩ := ih st out' st' hrec
          refine ⟨by simp [ihlen], ?_⟩
          intro i hi
          cases i with
          | zero => simp [defaultOleVar, defaultSiteVar, hv]
          | succ j =>
            simp only [List.getD_cons_succ]
            exact ihspec j (by simpa using hi)

/-- C5: in the per-site loop of extract_OleFormVariables, a MorphDataControl
value decode on the data stream is attempted for a site exactly when its
ClsidCacheIndex is 23: a batch in which every site has another index decodes
completely with value = None everywhere and without touching the data stream;
a list headed by a non-23 site proceeds directly to the remaining sites with
value = None attached (the unsupported-type case cannot abort); a list headed
by a 23 site first runs consume_MorphDataControl; any aborting error implies
some site with index 23 was present; and on success the output pairs each
site, in order, with value = None exactly for the non-23 sites. -/
theorem c5_value_decode_iff (vars : List SiteVar) (st : ExtendedStream) :
    ((∀ v ∈ vars, v.ClsidCacheIndex ≠ 23) →
      extract_loop vars st = (.ok (vars.map fun v => ⟨v, none⟩), st)) ∧
    (∀ v rest, vars = v :: rest → v.ClsidCacheIndex ≠ 23 →
      extract_loop vars st =
        stepE (extract_loop rest st) (fun out st2 => (.ok (⟨v, none⟩ :: out), st2))) ∧
    (∀ v rest, vars = v :: rest → v.ClsidCacheIndex = 23 →
      extract_loop vars st =
        stepE (consume_MorphDataControl st) (fun value st1 =>
          stepE (extract_loop rest st1) fun out st2 =>
            (.ok (⟨v, some value⟩ :: out), st2))) ∧
    (∀ e st2, extract_loop vars st = (.error e, st2) →
      ∃ v ∈ vars, v.ClsidCacheIndex = 23) ∧
    (∀ out st2, extract_loop vars st = (.ok out, st2) →
      out.length = vars.length ∧
      ∀ i : Nat, i < vars.length →
        (out.getD i defaultOleVar).var = vars.getD i defaultSiteVar ∧
        ((out.getD i defaultOleVar).value = none ↔
          (vars.getD i defaultSiteVar).ClsidCacheIndex ≠ 23)) := by
  refine ⟨extract_loop_all_unsupported vars st, ?_, ?_, extract_loop_error_has23 vars st,
    extract_loop_ok_spec vars st⟩
  · intro v rest hvars hv
    subst hvars
    simp only [extract_loop]
    rw [if_pos hv]
  · intro v rest hvars hv
    subst hvars
    simp only [extract_loop]
    rw [if_neg (not_not_intro hv)]

theorem c5_value_decode_iff_witness :
    extract_loop [⟨[], [], 0, 0, 99⟩] ⟨0, [], []⟩ =
      (.ok [⟨⟨[], [], 0, 0, 99⟩, none⟩], ⟨0, [], []⟩) :=
  (c5_value_decode_iff [⟨[], [], 0, 0, 99⟩] ⟨0, [], []⟩).1 (by decide)

theorem unpacksBB_ok_len (st : ExtendedStream) (ab : Nat × Nat) (st1 : ExtendedStream)
    (h : unpacksBB st = (.ok ab, st1)) : st1.stream.length + 2 = st.stream.length := by
  obtain ⟨pos, jumps, stream⟩ := st
  match stream with
  | [] => simp [unpacksBB, ExtendedStream.read] at h
  | [x] => simp [unpacksBB, ExtendedStream.read] at h
  | x :: y :: rest =>
    simp only [unpacksBB, ExtendedStream.read, show Int.toNat 2 = 2 from rfl,
      List.take_succ_cons, List.take_zero, List.drop_succ_cons, List.drop_zero] at h
    norm_num at h
    rw [← h.2]
    simp

theorem unpackB_ok_len (st : ExtendedStream) (b : Nat) (st1 : ExtendedStream)
    (h : unpackB st = (.ok b, st1)) : st1.stream.length + 1 = st.stream.length := by
  obtain ⟨pos, jumps, stream⟩ := st
  match stream with
  | [] => simp [unpackB, ExtendedStream.read] at h
  | x :: rest =>
    simp only [unpackB, ExtendedStream.read, show Int.toNat 1 = 1 from rfl,
      List.take_succ_cons, List.take_zero, List.drop_succ_cons, List.drop_zero] at h
    norm_num at h
    rw [← h.2]
    simp

theorem check_value_B_ok_len (st : ExtendedStream) (expected : Nat) (name : String)
    (st1 : ExtendedStream) (h : check_value_B st expected name = (.ok (), st1)) :
    st1.stream.length + 1 = st.stream.length := by
  unfold check_value_B at h
  cases hu : unpackB st with
  | mk res s1 =>
    rw [hu] at h
    cases res with
    | error e => simp [stepE] at h
    | ok v =>
      simp only [stepE] at h
      split at h
      · simp only [Prod.mk.injEq] at h
        rw [← h.2]
        exact unpackB_ok_len st v s1 hu
      · simp at h

theorem consume_FODTC_ok_len (st : ExtendedStream) (c : Nat) (st1 : ExtendedStream)
    (h : consume_FormObjectDepthTypeCount st = (.ok c, st1)) :
    st1.stream.length < st.stream.length := by
  unfold consume_FormObjectDepthTypeCount at h
  cases hu : unpacksBB st with
  | mk res s1 =>
    rw [hu] at h
    cases res with
    | error e => simp [stepE] at h
    | ok dm =>
      simp only [stepE] at h
      have hlen := unpacksBB_ok_len st dm s1 hu
      by_cases h80 : dm.2 &&& 0x80 ≠ 0
      · rw [if_pos h80] at h
        cases hc : check_value_B s1 1 "FormObjectDepthTypeCount (SITE_TYPE)" with
        | mk res2 s2 =>
          rw [hc] at h
          cases res2 with
          | error e => simp [stepE] at h
          | ok u =>
            simp only [stepE, Prod.mk.injEq, Except.ok.injEq] at h
            have hlen2 := check_value_B_ok_len s1 1 _ s2 hc
            rw [← h.2]
            omega
      · rw [if_neg h80] at h
        by_cases h1 : dm.2 ≠ 1
        · rw [if_pos h1] at h
          simp at h
        · rw [if_neg h1] at h
          simp only [Prod.mk.injEq, Except.ok.injEq] at h
          rw [← h.2]
          omega

theorem depthTypeLoopF_isSome (fuel : Nat) :
    ∀ (remaining : Int) (st : ExtendedStream), st.stream.length < fuel →
    (depthTypeLoopF fuel remaining st).isSome = true := by
  induction fuel with
  | zero => intro r st h; exact absurd h (Nat.not_lt_zero _)
  | succ fuel ih =>
    intro r st h
    simp only [depthTypeLoopF]
    split
    · cases hc : consume_FormObjectDepthTypeCount st with
      | mk res st1 =>
        cases res with
        | ok c =>
          exact ih (r - (c : Int)) st1 (by have := consume_FODTC_ok_len st c st1 hc; omega)
        | error e => simp
    · simp

theorem depthTypeLoopF_ok_le (fuel : Nat) :
    ∀ (remaining : Int) (st : ExtendedStream) (r2 : Int) (st2 : ExtendedStream),
    depthTypeLoopF fuel remaining st = some (.ok r2, st2) → r2 ≤ 0 := by
  induction fuel with
  | zero => intro r st r2 st2 h; simp [depthTypeLoopF] at h
  | succ fuel ih =>
    intro r st r2 st2 h
    simp only [depthTypeLoopF] at h
    split at h
    · cases hc : consume_FormObjectDepthTypeCount st with
      | mk res st1 =>
        rw [hc] at h
        cases res with
        | ok c => exact ih (r - (c : Int)) st1 r2 st2 h
        | error e => simp at h
    · simp only [Option.some.injEq, Prod.mk.injEq, Except.ok.injEq] at h
      omega

/-- C9: for every input byte sequence and every countOfSites value, the
depth and type loop of the FormControl decoder terminates within
streamLength + 1 iterations: each successfully decoded
FormObjectDepthTypeCount record consumes at least two stream bytes, and a
failed decode ends the loop by exception; moreover whenever the loop exits
normally the running counter (countOfSites minus the summed repeat counts)
has reached zero or below, i.e. the loop ends once the sum of the decoded
repeat counts reaches countOfSites. -/
theorem c9_depth_type_loop_terminates (remaining : Int) (st : ExtendedStream) :
    (depthTypeLoopF (st.stream.length + 1) remaining st).isSome = true ∧
    (∀ (r2 : Int) (st2 : ExtendedStream),
      depthTypeLoopF (st.stream.length + 1) remaining st = some (.ok r2, st2) → r2 ≤ 0) :=
  ⟨depthTypeLoopF_isSome _ remaining st (by omega),
   fun r2 st2 h => depthTypeLoopF_ok_le _ remaining st r2 st2 h⟩

theorem c9_depth_type_loop_terminates_witness :
    (depthTypeLoopF 3 1 ⟨0, [], [0, 1]⟩).isSome = true ∧ (0 : Int) ≤ 0 :=
  ⟨(c9_depth_type_loop_terminates 1 ⟨0, [], [0, 1]⟩).1,
   (c9_depth_type_loop_terminates 1 ⟨0, [], [0, 1]⟩).2 0 ⟨2, [], []⟩ (by decide)⟩

theorem bit_extract_eq (v i : Nat) : (v &&& (1 <<< i)) >>> i = if v.testBit i then 1 else 0 := by
  rw [Nat.one_shiftLeft, Nat.and_two_pow, Nat.shiftRight_eq_div_pow,
    Nat.mul_div_cancel _ (Nat.two_pow_pos i)]
  cases h : v.testBit i <;> simp

theorem sel_from (names : List String) : ∀ (v k : Nat),
    ((List.enumFrom k names).filter (fun p => v.testBit p.1)).map Prod.snd
      = ((List.range names.length).filter (fun i => v.testBit (k + i))).map
          (fun i => names.getD i "") := by
  induction names with
  | nil => intro v k; rfl
  | cons x xs ih =>
    intro v k
    have tail_eq : ((List.enumFrom (k + 1) xs).filter (fun p => v.testBit p.1)).map Prod.snd
        = ((List.map Nat.succ (List.range xs.length)).filter
            (fun i => v.testBit (k + i))).map (fun i => (x :: xs).getD i "") := by
      rw [List.filter_map, List.map_map, ih v (k + 1)]
      have hfun : ((fun i => (x :: xs).getD i "") ∘ Nat.succ) = (fun i => xs.getD i "") := by
        funext i
        rfl
      have hpred : ((fun i => v.testBit (k + i)) ∘ Nat.succ)
          = (fun i => v.testBit (k + 1 + i)) := by
        funext i
        exact congrArg v.testBit (by omega)
      rw [hfun, hpred]
    simp only [List.enumFrom_cons, List.length_cons, List.range_succ_eq_map, List.filter_cons]
    by_cases hk : v.testBit k
    · rw [if_pos (by simpa using hk), if_pos (by simpa using hk)]
      simp only [List.map_cons, List.getD_cons_zero]
      rw [tail_eq]
    · rw [if_neg (by simpa using hk), if_neg (by simpa using hk)]
      rw [tail_eq]

theorem mkMask_val_getD (size : Nat) (names : List String) (v i : Nat) :
    (mkMask size names v).val.getD i 0 =
      if i < size then (if v.testBit i then 1 else 0) else 0 := by
  unfold mkMask
  dsimp only
  rw [List.getD_eq_getElem?_getD, List.getElem?_map]
  by_cases hi : i < size
  · rw [List.getElem?_range hi]
    simp [bit_extract_eq, hi]
  · rw [List.getElem?_eq_none (by simp [List.length_range]; omega)]
    simp [hi]

theorem maskStr_eq_spec (names : List String) (v : Nat) :
    maskStr (mkMask names.length names v) = maskRenderSpec names v := by
  have h1 : ∀ i ∈ List.range names.length,
      ((mkMask names.length names v).val.getD i 0 != 0) = v.testBit i := by
    intro i hi
    rw [mkMask_val_getD]
    rw [if_pos (List.mem_range.mp hi)]
    cases h : v.testBit i <;> simp
  unfold maskStr
  rw [show (mkMask names.length names v).size = names.length from rfl]
  rw [show (mkMask names.length names v).names = names from rfl]
  rw [List.filter_congr h1]
  unfold maskRenderSpec
  congr 1
  rw [show names.enum = List.enumFrom 0 names from rfl]
  rw [sel_from names v 0]
  simp only [Nat.zero_add]

/-- C6: for every backing value v and each of the three declared flag-name
lists (of lengths 28, 15 and 33), construction succeeds and yields the full
N-entry flag list, the flag at index i equals bit i of v counted LSB first
(and is 0 beyond the declared width), and the textual rendering of the mask
is exactly the spec-side rendering: the comma-joined names whose bit is 1,
in declared order. -/
theorem c6_mask_flags_and_render (v : Nat) :
    (FormPropMask v).val.length = 28 ∧
    (SitePropMask v).val.length = 15 ∧
    (MorphDataPropMask v).val.length = 33 ∧
    (∀ i : Nat, (FormPropMask v).val.getD i 0 =
      if i < 28 then (if v.testBit i then 1 else 0) else 0) ∧
    (∀ i : Nat, (SitePropMask v).val.getD i 0 =
      if i < 15 then (if v.testBit i then 1 else 0) else 0) ∧
    (∀ i : Nat, (MorphDataPropMask v).val.getD i 0 =
      if i < 33 then (if v.testBit i then 1 else 0) else 0) ∧
    maskStr (FormPropMask v) = maskRenderSpec formPropMaskNames v ∧
    maskStr (SitePropMask v) = maskRenderSpec sitePropMaskNames v ∧
    maskStr (MorphDataPropMask v) = maskRenderSpec morphDataPropMaskNames v :=
  ⟨by simp [FormPropMask, mkMask],
   by simp [SitePropMask, mkMask],
   by simp [MorphDataPropMask, mkMask],
   fun i => mkMask_val_getD 28 formPropMaskNames v i,
   fun i => mkMask_val_getD 15 sitePropMaskNames v i,
   fun i => mkMask_val_getD 33 morphDataPropMaskNames v i,
   maskStr_eq_spec formPropMaskNames v,
   maskStr_eq_spec sitePropMaskNames v,
   maskStr_eq_spec morphDataPropMaskNames v⟩

theorem maskGetattr_mk (size : Nat) (names : List String) (v i : Nat)
    (hname : names.indexOf? (names.getD i "") = some i) (hi : i < size) :
    maskGetattr (mkMask size names v) (names.getD i "") =
      .ok ((v &&& (1 <<< i)) >>> i) := by
  unfold maskGetattr
  dsimp only [mkMask]
  rw [hname]
  dsimp only
  rw [List.getElem?_map, List.getElem?_range hi]
  rfl

theorem sitePropMask_selfindex :
    (List.range 15).all
      (fun i => sitePropMaskNames.indexOf? (sitePropMaskNames.getD i "") == some i) = true := by
  decide

theorem morphDataPropMask_selfindex :
    (List.range 33).all
      (fun i => morphDataPropMaskNames.indexOf? (morphDataPropMaskNames.getD i "") == some i)
      = true := by
  decide

theorem formPropMask_selfindex :
    (List.range 28).all
      (fun i => (i == 7) ||
        (formPropMaskNames.indexOf? (formPropMaskNames.getD i "") == some i)) = true := by
  decide

/-- C7: as stated the claim fails on FormPropMask.  The declared name at bit
index 7 is fBooleanProperties, which also occurs at index 6, and name lookup
resolves to the first occurrence: every declared name resolves to an index
other than 7, so no name queries bit 7.  Concretely, on the value 128 (bit 7
set, all others clear) the lookup of fBooleanProperties returns bit 6, namely
0, although bit 7 of the mask is 1. -/
theorem c7_counterexample :
    formPropMaskNames.getD 7 "" = "fBooleanProperties" ∧
    formPropMaskNames.indexOf? "fBooleanProperties" = some 6 ∧
    formPropMaskNames.all (fun n => formPropMaskNames.indexOf? n != some 7) = true ∧
    maskGetattr (FormPropMask 128) "fBooleanProperties" = .ok 0 ∧
    (FormPropMask 128).val.getD 7 0 = 1 := by
  decide

/-- C7 amended: for SitePropMask and MorphDataPropMask every bit index i has
a name - the i-th declared one - whose lookup returns exactly bit i of the
backing value; for FormPropMask the same holds for every bit except bit 7,
which is unreachable by name because the name declared at index 7,
fBooleanProperties, is a duplicate of index 6 and lookup resolves to the
first occurrence. -/
theorem c7_named_bits_amended (v i : Nat) :
    (i < 15 → maskGetattr (SitePropMask v) (sitePropMaskNames.getD i "") =
      .ok ((v &&& (1 <<< i)) >>> i)) ∧
    (i < 33 → maskGetattr (MorphDataPropMask v) (morphDataPropMaskNames.getD i "") =
      .ok ((v &&& (1 <<< i)) >>> i)) ∧
    (i < 28 → i ≠ 7 → maskGetattr (FormPropMask v) (formPropMaskNames.getD i "") =
      .ok ((v &&& (1 <<< i)) >>> i)) := by
  refine ⟨?_, ?_, ?_⟩
  · intro hi
    refine maskGetattr_mk 15 sitePropMaskNames v i ?_ hi
    have := List.all_eq_true.mp sitePropMask_selfindex i (List.mem_range.mpr hi)
    simpa using this
  · intro hi
    refine maskGetattr_mk 33 morphDataPropMaskNames v i ?_ hi
    have := List.all_eq_true.mp morphDataPropMask_selfindex i (List.mem_range.mpr hi)
    simpa using this
  · intro hi h7
    refine maskGetattr_mk 28 formPropMaskNames v i ?_ hi
    have := List.all_eq_true.mp formPropMask_selfindex i (List.mem_range.mpr hi)
    simp only [Bool.or_eq_true, beq_iff_eq] at this
    rcases this with h | h
    · exact absurd h h7
    · exact h

theorem c7_named_bits_amended_witness :
    maskGetattr (SitePropMask 1) (sitePropMaskNames.getD 0 "") =
      .ok ((1 &&& (1 <<< 0)) >>> 0) ∧
    maskGetattr (MorphDataPropMask 2) (morphDataPropMaskNames.getD 1 "") =
      .ok ((2 &&& (1 <<< 1)) >>> 1) ∧
    maskGetattr (FormPropMask 4) (formPropMaskNames.getD 2 "") =
      .ok ((4 &&& (1 <<< 2)) >>> 2) :=
  ⟨(c7_named_bits_amended 1 0).1 (by decide),
   (c7_named_bits_amended 2 1).2.1 (by decide),
   (c7_named_bits_amended 4 2).2.2 (by decide) (by decide)⟩
